import Mathlib

/-! Verification of the cardozi backend's project lifecycle.  This file is a
shallow embedding of `src/backend/src/api/main.py`, `src/backend/src/worker/tasks.py`
and the persisted `projects` table described by `src/backend/src/domain/models.py`
together with the ad-hoc migrations of `src/backend/src/core/database.py`,
followed by theorems about the embedded operations.  Timestamps are abstracted
to `Nat`, JSON values to opaque strings, and the remote Browser Use gateway to
an explicit behaviour parameter. -/

namespace Cardozi

/-- The structured record built by `_execute_browser_workflow`
(`worker/tasks.py`, lines 116-122 and 128-134): a dict with keys
`session_id`, `status`, `stream_url`, `output` and either `blocked_at`
or `completed_at` (the absent key is `none`). -/
structure ResultData where
  session_id : String
  status : String
  stream_url : Option String
  output : String
  blocked_at : Option Nat
  completed_at : Option Nat
deriving DecidableEq, Repr

/-- One persisted row of the `projects` table.  The first seven fields are the
`Column`s declared on `Project` in `src/backend/src/domain/models.py` (the
audit timestamps `created_at` / `updated_at` are omitted: no claim concerns
them).  `last_result` and `last_run_at` are the physical columns added by
`run_migrations` in `src/backend/src/core/database.py`; the `Project` mapper
declares no attribute for either name, so no ORM write ever reaches these two
columns (see `_update_project_result` below). -/
structure Row where
  id : String
  status : String
  system_prompt : Option String
  output_schema : Option String
  auth_cookies : Option String
  live_stream_url : Option String
  active_session_id : Option String
  last_result : Option ResultData
  last_run_at : Option Nat
deriving DecidableEq, Repr

/-- The project store: the `projects` table as an association list keyed by
project id (`id` is the primary key, so at most one row per id in practice;
the definitions below act on every row carrying the id, which is what a
`WHERE id = pid` statement does). -/
abbrev Store := List (String × Row)

/-- `SELECT ... WHERE Project.id == project_id` followed by
`scalar_one_or_none()`: the first row with the given id, if any. -/
def findProject : Store → String → Option Row
  | [], _ => none
  | (q, r) :: rest, pid => if q = pid then some r else findProject rest pid

/-- A single-row `UPDATE ... WHERE id = pid`: apply `f` to every row whose
key is `pid`, leave the rest untouched. -/
def setRow : Store → String → (Row → Row) → Store
  | [], _, _ => []
  | (q, r) :: rest, pid, f =>
      if q = pid then (q, f r) :: setRow rest pid f
      else (q, r) :: setRow rest pid f

/-- `DELETE ... WHERE id = pid`: remove every row whose key is `pid`. -/
def removeRow : Store → String → Store
  | [], _ => []
  | (q, r) :: rest, pid =>
      if q = pid then removeRow rest pid else (q, r) :: removeRow rest pid

/-- `_update_project_status` (`worker/tasks.py`, lines 150-166): look the
project up; if present overwrite its `status` column and commit, otherwise
log and change nothing.  The `message` argument of the Python function is
ignored by the source itself (the comment at line 159 notes a status-message
field could be added), so it is not a parameter here.  All exceptions are
caught inside the function, so it is total. -/
def _update_project_status (st : Store) (pid status : String) : Store :=
  match findProject st pid with
  | some _ => setRow st pid (fun r => { r with status := status })
  | none => st

/-- `_update_project_session` (`worker/tasks.py`, lines 169-183): if the
project is present overwrite `active_session_id` and `live_stream_url`,
otherwise change nothing. -/
def _update_project_session (st : Store) (pid session_id : String)
    (stream_url : Option String) : Store :=
  match findProject st pid with
  | some _ => setRow st pid (fun r =>
      { r with active_session_id := some session_id, live_stream_url := stream_url })
  | none => st

/-- `_update_project_result` (`worker/tasks.py`, lines 186-200).  The handler
assigns `project.last_result` and `project.last_run_at` and commits — but the
`Project` mapper in `src/domain/models.py` declares no `Column` named
`last_result` or `last_run_at`, so these assignments create plain unmapped
Python instance attributes that SQLAlchemy's unit of work does not track:
`db.commit()` flushes no UPDATE and the persisted row is unchanged.  (The
physical columns exist only via `run_migrations` in `core/database.py` and
stay NULL forever.)  The function is therefore a no-op on the store, for a
present id as well as for an absent one. -/
def _update_project_result (st : Store) (pid : String) (_r : ResultData)
    (_now : Nat) : Store :=
  match findProject st pid with
  | some _ => st
  | none => st

/-- Python's `a or b` on two optional strings, as used at `tasks.py` line 99:
`getattr(task, 'live_url', None) or getattr(task, 'stream_url', None)`.
`None` and the empty string are falsy. -/
def pyOr (a b : Option String) : Option String :=
  match a with
  | some s => if s = "" then b else some s
  | none => b

/-- Substring occurrence on character lists. -/
def containsSub (needle : List Char) : List Char → Bool
  | [] => needle.isEmpty
  | c :: rest => needle.isPrefixOf (c :: rest) || containsSub needle rest

/-- The blocked-marker test at `tasks.py` line 113:
`'BLOCKED' in str(output).upper()` — uppercase the output text character by
character and look for the substring `"BLOCKED"` (faithful for ASCII text;
`Char.toUpper` and Python `str.upper` agree on ASCII). -/
def isBlockedOutput (output : String) : Bool :=
  containsSub "BLOCKED".toList (output.toList.map Char.toUpper)

/-- The observable behaviour of one completed remote Browser Use call:
the `live_url` / `stream_url` attributes of the created task (either may be
absent), the text of `getattr(result, 'output', str(result))`, and the value
`datetime.utcnow()` takes when the result record is built. -/
structure RemoteBehavior where
  live_url : Option String
  stream_url : Option String
  output : String
  now : Nat
deriving DecidableEq, Repr

/-- The result record `_execute_browser_workflow` builds for a completed
remote call: status `"BLOCKED"` with a `blocked_at` timestamp when the output
carries the blocked marker, status `"COMPLETED"` with a `completed_at`
timestamp otherwise (`tasks.py`, lines 113-134). -/
def workflow_result (session_id : String) (rb : RemoteBehavior) : ResultData :=
  if isBlockedOutput rb.output then
    ⟨session_id, "BLOCKED", pyOr rb.live_url rb.stream_url, rb.output, some rb.now, none⟩
  else
    ⟨session_id, "COMPLETED", pyOr rb.live_url rb.stream_url, rb.output, none, some rb.now⟩

/-- `_execute_browser_workflow` (`worker/tasks.py`, lines 69-136) for a remote
call that completes (raising remote calls are handled in `attempt_body`).
The composition of the task prompt (lines 82-88) is elided: it only flows to
the opaque remote gateway and affects no persisted state.  Steps: persist the
fresh session id and stream URL; wait for completion; if the output carries
the blocked marker, persist status `BLOCKED` and the blocked result record;
otherwise persist the completed result record.  The function returns the
result record to its caller in both cases. -/
def _execute_browser_workflow (st : Store) (pid session_id : String)
    (rb : RemoteBehavior) : Store × ResultData :=
  let streamUrl := pyOr rb.live_url rb.stream_url
  let st1 := _update_project_session st pid session_id streamUrl
  if isBlockedOutput rb.output then
    let st2 := _update_project_status st1 pid "BLOCKED"
    let rd := workflow_result session_id rb
    (_update_project_result st2 pid rd rb.now, rd)
  else
    let rd := workflow_result session_id rb
    (_update_project_result st1 pid rd rb.now, rd)

/-- What the environment does on one attempt of the task body: either some
call raises (`client.tasks.create_task`, the database, ...) before any
session was persisted, or `task.complete()` raises after the session fields
were persisted, or the remote call completes with the given behaviour.
`session_id` is the `uuid.uuid4()` drawn at `tasks.py` line 76. -/
inductive AttemptOutcome where
  | raises (msg : String)
  | completeRaises (session_id : String) (live_url stream_url : Option String) (msg : String)
  | completes (session_id : String) (rb : RemoteBehavior)
deriving DecidableEq, Repr

/-- The message of the exception an attempt outcome raises, if it raises
one: a failure before the session write (`raises`) and a failure of the
blocking `task.complete()` wait after it (`completeRaises`) reach the same
`except` handler of `run_agent_workflow`; a completed remote call raises
nothing. -/
def errorMsg : AttemptOutcome → Option String
  | .raises m => some m
  | .completeRaises _ _ _ m => some m
  | .completes _ _ => none

/-- Outcome of the `try` block of `run_agent_workflow`: the returned result
record, or the message of the exception that reached the handler. -/
inductive AttemptResult where
  | ok (rd : ResultData)
  | exc (msg : String)
deriving DecidableEq, Repr

/-- One execution of the `try` block of `run_agent_workflow`
(`worker/tasks.py`, lines 20-46): persist status `RUNNING`; fetch the
project, raising `Project ... not found` if it is gone; run the browser
workflow; on completion persist status `IDLE` (line 38 does so
unconditionally, whatever the workflow observed) and return the result. -/
def attempt_body (st : Store) (pid : String) (o : AttemptOutcome) :
    Store × AttemptResult :=
  let st1 := _update_project_status st pid "RUNNING"
  match findProject st1 pid with
  | none => (st1, .exc ("Project " ++ pid ++ " not found"))
  | some _ =>
    match o with
    | .raises msg => (st1, .exc msg)
    | .completeRaises sid live su msg =>
        (_update_project_session st1 pid sid (pyOr live su), .exc msg)
    | .completes sid rb =>
        let p := _execute_browser_workflow st1 pid sid rb
        (_update_project_status p.1 pid "IDLE", .ok p.2)

/-- What the Celery task ultimately returns for the logical run: the success
dict `{status: completed, project_id, result, message}` or, once retries are
exhausted, the failure dict `{status: failed, project_id, error}`. -/
inductive TaskReturn where
  | completed (pid : String) (rd : ResultData)
  | failed (pid error : String)
deriving DecidableEq, Repr

/-- The retry loop of `run_agent_workflow` (`worker/tasks.py`, lines 48-60).
`remaining = 3 - self.request.retries` is the number of retries the guard
`self.request.retries < 3` still allows, and `i` is the index of the current
attempt (the queue's retry counter).  On an exception the handler persists
status `BLOCKED` and, if a retry remains, reschedules the task with
`countdown=60` (collected in the returned delay list); otherwise it returns
the failure dict carrying the last error. -/
def run_task_aux (pid : String) (beh : Nat → AttemptOutcome) :
    Nat → Nat → Store → Store × TaskReturn × List Nat
  | 0, i, st =>
    (match attempt_body st pid (beh i) with
     | (st1, .ok rd) => (st1, .completed pid rd, [])
     | (st1, .exc msg) =>
         (_update_project_status st1 pid "BLOCKED", .failed pid msg, []))
  | (rem + 1), i, st =>
    (match attempt_body st pid (beh i) with
     | (st1, .ok rd) => (st1, .completed pid rd, [])
     | (st1, .exc _msg) =>
         let st2 := _update_project_status st1 pid "BLOCKED"
         let p := run_task_aux pid beh rem (i + 1) st2
         (p.1, p.2.1, 60 :: p.2.2))

/-- One logical run of the coordinator task `run_agent_workflow` for project
`pid`, with the environment's per-attempt behaviour given by `beh` (indexed
by the queue's retry counter, starting at 0 with a budget of 3 retries). -/
def run_agent_workflow (pid : String) (beh : Nat → AttemptOutcome)
    (st : Store) : Store × TaskReturn × List Nat :=
  run_task_aux pid beh 3 0 st

/-- The request body of `POST /projects/` (`api/main.py`, lines 30-32):
pydantic requires `system_prompt` to be present and a string — nothing more —
and `output_schema` is optional. -/
structure ProjectCreate where
  system_prompt : String
  output_schema : Option String
deriving DecidableEq, Repr

/-- The response of `create_project` as the source actually produces it.
After the commit, lines 82-94 of `api/main.py` build a `ProjectResponse`
reading `db_project.last_result` and `db_project.last_run_at` — attribute
names the `Project` mapper never defines and the endpoint never assigned, so
the construction raises `AttributeError` (surfaced as a server error) after
the row has already been committed. -/
inductive CreateResp where
  | attributeError
deriving DecidableEq, Repr

/-- `create_project` (`api/main.py`, lines 65-94): insert a new row with the
freshly drawn uuid `fresh_id`, the request's `system_prompt` and
`output_schema`, and status `INITIALIZING`; commit; then attempt to build the
response (see `CreateResp`).  No validation beyond pydantic's type check is
performed: an empty `system_prompt` is inserted like any other. -/
def create_project (body : ProjectCreate) (fresh_id : String) (st : Store) :
    Store × CreateResp :=
  let row : Row :=
    { id := fresh_id, status := "INITIALIZING",
      system_prompt := some body.system_prompt,
      output_schema := body.output_schema,
      auth_cookies := none, live_stream_url := none,
      active_session_id := none, last_result := none, last_run_at := none }
  (st ++ [(fresh_id, row)], .attributeError)

/-- The response of `GET /projects/{id}`: 404 `Project not found` when the id
is absent; when it is present, lines 130-142 of `api/main.py` build a
`ProjectResponse` reading `project.last_result` / `project.last_run_at`,
unmapped attribute names, so the handler raises `AttributeError` (a server
error) instead of returning the projection. -/
inductive GetResp where
  | notFound
  | attributeError
deriving DecidableEq, Repr

/-- `get_project` (`api/main.py`, lines 121-142). -/
def get_project (st : Store) (pid : String) : GetResp :=
  match findProject st pid with
  | none => .notFound
  | some _ => .attributeError

/-- Whether `run_agent_workflow.delay(project_id)` succeeds (returning the
task id) or raises (broker unreachable, no backend, ...). -/
inductive EnqueueResult where
  | ok (task_id : String)
  | raises (msg : String)
deriving DecidableEq, Repr

/-- The response of `POST /projects/{id}/start`: 404 `Project not found`;
400 `Project is already running`; the 200 started dict
`{message, project_id, task_id}`; or the 200 simulation dict
`{message, project_id, mode: simulation, reason}` produced by the fallback
branch. -/
inductive StartResp where
  | notFound
  | alreadyRunning
  | started (pid task_id : String)
  | simulationStarted (pid reason : String)
deriving DecidableEq, Repr

/-- `start_project` (`api/main.py`, lines 151-199).  Returns the new store,
the response, and whether durable coordinator work was actually enqueued.
404 when the id is absent; 400 when the status is `RUNNING` (no state change,
no enqueue); on a successful enqueue no state change (the worker itself sets
`RUNNING`); and when the enqueue raises, the except branch (lines 171-199)
silently persists status `RUNNING`, schedules the in-process
`simulate_workflow` coroutine, and returns the 200 simulation dict — no
durable work enqueued. -/
def start_project (st : Store) (pid : String) (enq : EnqueueResult) :
    Store × StartResp × Bool :=
  match findProject st pid with
  | none => (st, .notFound, false)
  | some row =>
    if row.status = "RUNNING" then (st, .alreadyRunning, false)
    else
      match enq with
      | .ok tid => (st, .started pid tid, true)
      | .raises msg =>
          (setRow st pid (fun r => { r with status := "RUNNING" }),
           .simulationStarted pid msg, false)

/-- `run_project` (`api/main.py`, lines 145-148): delegates verbatim to
`start_project` with the same arguments. -/
def run_project (st : Store) (pid : String) (enq : EnqueueResult) :
    Store × StartResp × Bool :=
  start_project st pid enq

/-- The background `simulate_workflow` coroutine scheduled by the fallback
branch of `start_project` (`api/main.py`, lines 181-192): after a sleep it
re-reads the project and, if still present, sets status `IDLE` and a fake
`active_session_id` derived from the current timestamp. -/
def simulate_workflow (st : Store) (pid : String) (now : Nat) : Store :=
  match findProject st pid with
  | some _ => setRow st pid (fun r =>
      { r with status := "IDLE",
               active_session_id := some ("simulated-session-" ++ toString now) })
  | none => st

/-- The response of `POST /projects/{id}/stop`: 404 `Project not found`, or
the 200 dict `{message: Project stopped, project_id}`. -/
inductive StopResp where
  | notFound
  | stopped (pid : String)
deriving DecidableEq, Repr

/-- `stop_project` (`api/main.py`, lines 202-220): 404 when absent; otherwise
persist status `IDLE` and clear `active_session_id` and `live_stream_url`. -/
def stop_project (st : Store) (pid : String) : Store × StopResp :=
  match findProject st pid with
  | none => (st, .notFound)
  | some _ =>
      (setRow st pid (fun r =>
        { r with status := "IDLE", active_session_id := none,
                 live_stream_url := none }),
       .stopped pid)

/-- The response of `DELETE /projects/{id}`: 404 `Project not found`, or the
200 dict `{message: Project deleted, project_id}`. -/
inductive DeleteResp where
  | notFound
  | deleted (pid : String)
deriving DecidableEq, Repr

/-- `delete_project` (`api/main.py`, lines 223-235): 404 when absent;
otherwise delete the row and commit. -/
def delete_project (st : Store) (pid : String) : Store × DeleteResp :=
  match findProject st pid with
  | none => (st, .notFound)
  | some _ => (removeRow st pid, .deleted pid)

/-! Store lemmas. -/

theorem findProject_setRow (st : Store) (pid : String) (f : Row → Row) :
    findProject (setRow st pid f) pid = (findProject st pid).map f := by
  induction st with
  | nil => rfl
  | cons hd tl ih =>
    obtain ⟨q, r⟩ := hd
    by_cases h : q = pid <;> simp [setRow, findProject, h, ih]

theorem findProject_removeRow (st : Store) (pid : String) :
    findProject (removeRow st pid) pid = none := by
  induction st with
  | nil => rfl
  | cons hd tl ih =>
    obtain ⟨q, r⟩ := hd
    by_cases h : q = pid <;> simp [removeRow, findProject, h, ih]

theorem findProject_append (st : Store) (pid : String) (row : Row)
    (h : findProject st pid = none) :
    findProject (st ++ [(pid, row)]) pid = some row := by
  induction st with
  | nil => simp [findProject]
  | cons hd tl ih =>
    obtain ⟨q, r⟩ := hd
    by_cases hq : q = pid
    · simp [findProject, hq] at h
    · simp only [findProject, hq] at h ⊢
      simp only [List.cons_append, findProject, hq, if_false]
      exact ih h

theorem update_status_absent (st : Store) (pid s : String)
    (h : findProject st pid = none) :
    _update_project_status st pid s = st := by
  simp [_update_project_status, h]

theorem update_status_found (st : Store) (pid s : String) (r : Row)
    (h : findProject st pid = some r) :
    _update_project_status st pid s
      = setRow st pid (fun x => { x with status := s }) := by
  simp [_update_project_status, h]

theorem findProject_update_status (st : Store) (pid s : String) (r : Row)
    (h : findProject st pid = some r) :
    findProject (_update_project_status st pid s) pid
      = some { r with status := s } := by
  rw [update_status_found st pid s r h, findProject_setRow, h]
  rfl

theorem update_session_absent (st : Store) (pid sid : String) (url : Option String)
    (h : findProject st pid = none) :
    _update_project_session st pid sid url = st := by
  simp [_update_project_session, h]

theorem findProject_update_session (st : Store) (pid sid : String)
    (url : Option String) (r : Row) (h : findProject st pid = some r) :
    findProject (_update_project_session st pid sid url) pid
      = some { r with active_session_id := some sid, live_stream_url := url } := by
  have : _update_project_session st pid sid url
      = setRow st pid (fun x =>
          { x with active_session_id := some sid, live_stream_url := url }) := by
    simp [_update_project_session, h]
  rw [this, findProject_setRow, h]
  rfl

theorem update_result_id (st : Store) (pid : String) (rd : ResultData) (n : Nat) :
    _update_project_result st pid rd n = st := by
  unfold _update_project_result
  cases findProject st pid <;> rfl

/-! Coordinator lemmas. -/

theorem execute_workflow_snd (st : Store) (pid sid : String) (rb : RemoteBehavior) :
    (_execute_browser_workflow st pid sid rb).2 = workflow_result sid rb := by
  unfold _execute_browser_workflow workflow_result
  by_cases hb : isBlockedOutput rb.output <;> simp [hb]

theorem execute_workflow_presence (st : Store) (pid sid : String)
    (rb : RemoteBehavior) (r : Row) (h : findProject st pid = some r) :
    ∃ r', findProject (_execute_browser_workflow st pid sid rb).1 pid = some r' := by
  unfold _execute_browser_workflow
  by_cases hb : isBlockedOutput rb.output
  · simp only [hb, if_true, update_result_id]
    exact ⟨_, findProject_update_status _ _ _ _
      (findProject_update_session _ _ _ _ _ h)⟩
  · simp only [hb, if_false, update_result_id]
    exact ⟨_, findProject_update_session _ _ _ _ _ h⟩

theorem attempt_body_raising (st : Store) (pid : String) (o : AttemptOutcome)
    (m : String) (r : Row) (h : findProject st pid = some r)
    (ho : errorMsg o = some m) :
    ∃ st' r', attempt_body st pid o = (st', .exc m) ∧
      findProject st' pid = some r' := by
  have h1 := findProject_update_status st pid "RUNNING" r h
  cases o with
  | raises m0 =>
    obtain rfl : m0 = m := by simpa [errorMsg] using ho
    refine ⟨_update_project_status st pid "RUNNING",
      { r with status := "RUNNING" }, ?_, h1⟩
    simp [attempt_body, h1]
  | completeRaises sid live su m0 =>
    obtain rfl : m0 = m := by simpa [errorMsg] using ho
    refine ⟨_update_project_session (_update_project_status st pid "RUNNING")
        pid sid (pyOr live su), _, ?_,
      findProject_update_session _ _ _ _ _ h1⟩
    simp [attempt_body, h1]
  | completes sid rb => simp [errorMsg] at ho

theorem attempt_body_completes_eq (st : Store) (pid sid : String)
    (rb : RemoteBehavior) (r : Row) (h : findProject st pid = some r) :
    attempt_body st pid (.completes sid rb)
      = (_update_project_status
          (_execute_browser_workflow
            (_update_project_status st pid "RUNNING") pid sid rb).1
          pid "IDLE",
         .ok (workflow_result sid rb)) := by
  have h1 := findProject_update_status st pid "RUNNING" r h
  simp [attempt_body, h1, execute_workflow_snd]

theorem attempt_completes_status_idle (st : Store) (pid sid : String)
    (rb : RemoteBehavior) (r : Row) (h : findProject st pid = some r) :
    (findProject (attempt_body st pid (.completes sid rb)).1 pid).map Row.status
      = some "IDLE" := by
  rw [attempt_body_completes_eq st pid sid rb r h]
  obtain ⟨r', hr'⟩ := execute_workflow_presence
    (_update_project_status st pid "RUNNING") pid sid rb _
    (findProject_update_status st pid "RUNNING" r h)
  rw [findProject_update_status _ _ _ _ hr']
  rfl

theorem run_all_raises (pid : String) (beh : Nat → AttemptOutcome)
    (msgs : Nat → String) (remaining : Nat) :
    ∀ (i : Nat) (st : Store) (r : Row),
      findProject st pid = some r →
      (∀ k, k ≤ remaining → errorMsg (beh (i + k)) = some (msgs (i + k))) →
      ((findProject (run_task_aux pid beh remaining i st).1 pid).map Row.status
          = some "BLOCKED") ∧
      (run_task_aux pid beh remaining i st).2.1 = .failed pid (msgs (i + remaining)) ∧
      (run_task_aux pid beh remaining i st).2.2 = List.replicate remaining 60 := by
  induction remaining with
  | zero =>
    intro i st r h hbeh
    obtain ⟨st', r', hab, hp⟩ := attempt_body_raising st pid (beh i) (msgs i) r h
      (by simpa using hbeh 0 (Nat.le_refl 0))
    simp only [run_task_aux, hab]
    refine ⟨?_, by simp, by simp⟩
    rw [findProject_update_status _ _ _ _ hp]
    rfl
  | succ rem ih =>
    intro i st r h hbeh
    obtain ⟨st', r', hab, hp⟩ := attempt_body_raising st pid (beh i) (msgs i) r h
      (by simpa using hbeh 0 (Nat.zero_le _))
    have hblk : findProject (_update_project_status st' pid "BLOCKED") pid
        = some { r' with status := "BLOCKED" } :=
      findProject_update_status _ _ _ r' hp
    have hbeh' : ∀ k, k ≤ rem →
        errorMsg (beh (i + 1 + k)) = some (msgs (i + 1 + k)) := by
      intro k hk
      have e : i + 1 + k = i + (k + 1) := by omega
      rw [e]
      exact hbeh (k + 1) (by omega)
    obtain ⟨ih1, ih2, ih3⟩ := ih (i + 1) (_update_project_status st' pid "BLOCKED")
      { r' with status := "BLOCKED" } hblk hbeh'
    simp only [run_task_aux, hab]
    refine ⟨ih1, ?_, ?_⟩
    · rw [ih2]
      have e : i + 1 + rem = i + (rem + 1) := by omega
      rw [e]
    · rw [ih3, List.replicate_succ]

theorem run_eventual_success (pid : String) (beh : Nat → AttemptOutcome)
    (sid : String) (rb : RemoteBehavior) (j : Nat) :
    ∀ (remaining i : Nat) (st : Store) (r : Row),
      j ≤ remaining →
      findProject st pid = some r →
      (∀ k, k < j → ∃ m, errorMsg (beh (i + k)) = some m) →
      beh (i + j) = .completes sid rb →
      ((findProject (run_task_aux pid beh remaining i st).1 pid).map Row.status
          = some "IDLE") ∧
      (run_task_aux pid beh remaining i st).2.1
          = .completed pid (workflow_result sid rb) ∧
      (run_task_aux pid beh remaining i st).2.2 = List.replicate j 60 := by
  induction j with
  | zero =>
    intro remaining i st r _ h _ hs
    have hb0 : beh i = .completes sid rb := by simpa using hs
    have heq := attempt_body_completes_eq st pid sid rb r h
    have hidle := attempt_completes_status_idle st pid sid rb r h
    cases remaining with
    | zero =>
      simp only [run_task_aux, hb0, heq]
      refine ⟨?_, by simp, by simp⟩
      rw [heq] at hidle
      exact hidle
    | succ rem =>
      simp only [run_task_aux, hb0, heq]
      refine ⟨?_, by simp, by simp⟩
      rw [heq] at hidle
      exact hidle
  | succ j ih =>
    intro remaining i st r hj h hr hs
    obtain ⟨m, hm⟩ := hr 0 (Nat.succ_pos j)
    cases remaining with
    | zero => omega
    | succ rem =>
      obtain ⟨st', r', hab, hp⟩ := attempt_body_raising st pid (beh i) m r h
        (by simpa using hm)
      have hblk : findProject (_update_project_status st' pid "BLOCKED") pid
          = some { r' with status := "BLOCKED" } :=
        findProject_update_status _ _ _ r' hp
      have hr' : ∀ k, k < j → ∃ m', errorMsg (beh (i + 1 + k)) = some m' := by
        intro k hk
        have e : i + 1 + k = i + (k + 1) := by omega
        rw [e]
        exact hr (k + 1) (by omega)
      have hs' : beh (i + 1 + j) = .completes sid rb := by
        have e : i + 1 + j = i + (j + 1) := by omega
        rw [e]
        exact hs
      obtain ⟨ih1, ih2, ih3⟩ := ih rem (i + 1)
        (_update_project_status st' pid "BLOCKED")
        { r' with status := "BLOCKED" } (by omega) hblk hr' hs'
      simp only [run_task_aux, hab]
      exact ⟨ih1, ih2, by rw [ih3, List.replicate_succ]⟩

/-! Concrete fixtures used by the claim theorems and witnesses. -/

/-- A registered idle project, as `create_project` followed by a first
completed run would leave it. -/
def row0 : Row :=
  { id := "p1", status := "IDLE", system_prompt := some "extract invoice totals",
    output_schema := none, auth_cookies := none, live_stream_url := none,
    active_session_id := none, last_result := none, last_run_at := none }

/-- A remote behaviour whose output text carries the blocked marker. -/
def blockedBeh : Nat → AttemptOutcome :=
  fun _ => .completes "sess-1" ⟨none, none, "Result: BLOCKED - captcha encountered", 42⟩

/-- A remote behaviour that completes successfully with plain output. -/
def doneBeh : Nat → AttemptOutcome :=
  fun _ => .completes "sess-2" ⟨some "http://live", none, "done", 77⟩

/-- A behaviour raising on the first three attempts and succeeding on the
fourth. -/
def retryBeh : Nat → AttemptOutcome :=
  fun n => if n < 3 then .raises ("boom " ++ toString n)
           else .completes "sess-3" ⟨none, none, "done", 9⟩

/-- A behaviour raising on every attempt with a constant message, alternating
between a failure before the session write and a failure of the blocking
`task.complete()` wait. -/
def mixedRaiseBeh : Nat → AttemptOutcome :=
  fun n => if n % 2 = 0 then .raises "econnrefused"
           else .completeRaises ("sess-" ++ toString n) none none "econnrefused"

/-- A behaviour whose first attempt raises before the session write, whose
second attempt raises at the blocking wait, and whose third attempt
completes. -/
def mixedRetryBeh : Nat → AttemptOutcome :=
  fun n =>
    if n = 0 then .raises "econnrefused"
    else if n = 1 then .completeRaises "sess-a" none none "task timeout"
    else .completes "sess-3" ⟨none, none, "done", 9⟩

/-- Claim C1: the spec says a run whose remote output contains the
case-insensitive substring "BLOCKED" ends with persisted status BLOCKED and a
persisted `last_result` with status "BLOCKED".  The source violates this: the
blocked branch of `_execute_browser_workflow` (tasks.py line 115) persists
BLOCKED but then returns normally, so `run_agent_workflow` line 38
unconditionally overwrites the status with IDLE; and the `last_result`
assignment targets an unmapped attribute and is never persisted.  This
theorem evaluates the embedded coordinator at the failing input: the run's
final persisted status is IDLE, not BLOCKED, and the persisted `last_result`
column is still empty — even though the in-memory return dict does carry
status "BLOCKED". -/
theorem c1_blocked_run_persists_idle :
    ((findProject (run_agent_workflow "p1" blockedBeh [("p1", row0)]).1 "p1").map
        Row.status = some "IDLE") ∧
    ((findProject (run_agent_workflow "p1" blockedBeh [("p1", row0)]).1 "p1").map
        Row.status ≠ some "BLOCKED") ∧
    ((findProject (run_agent_workflow "p1" blockedBeh [("p1", row0)]).1 "p1").bind
        Row.last_result = none) ∧
    (run_agent_workflow "p1" blockedBeh [("p1", row0)]).2.1
      = .completed "p1" ⟨"sess-1", "BLOCKED", none,
          "Result: BLOCKED - captcha encountered", some 42, none⟩ := by
  decide

/-- Claim C2: the spec says a successful run ends with persisted status IDLE,
a persisted `last_result` with status "COMPLETED", and `last_run_at` set.
The status part holds, but `_update_project_result` assigns `last_result` and
`last_run_at` on attribute names the `Project` mapper never declares, so the
commit persists neither.  This theorem evaluates the embedded coordinator at
the failing input: the final status is IDLE as claimed, yet the persisted
`last_result` and `last_run_at` columns are still empty; the COMPLETED record
exists only in the task's in-memory return value. -/
theorem c2_success_run_drops_result :
    ((findProject (run_agent_workflow "p1" doneBeh [("p1", row0)]).1 "p1").map
        Row.status = some "IDLE") ∧
    ((findProject (run_agent_workflow "p1" doneBeh [("p1", row0)]).1 "p1").bind
        Row.last_result = none) ∧
    ((findProject (run_agent_workflow "p1" doneBeh [("p1", row0)]).1 "p1").bind
        Row.last_run_at = none) ∧
    (run_agent_workflow "p1" doneBeh [("p1", row0)]).2.1
      = .completed "p1" ⟨"sess-2", "COMPLETED", some "http://live", "done",
          none, some 77⟩ := by
  decide

/-- Claim C3, counterexample: the claim says a run that raises an error on 3
consecutive attempts ends with status BLOCKED, with a maximum of 3 attempts.
In the source the guard `self.request.retries < 3` together with
`max_retries=3` schedules a retry after each of the first three errors, so a
run whose first three attempts raise and whose fourth succeeds performs a
fourth attempt and ends IDLE with a completed result — contradicting the
claim at this concrete input (three backoffs of 60 were used, revealing the
fourth attempt). -/
theorem c3_three_errors_then_success_ends_idle :
    ((findProject (run_agent_workflow "p1" retryBeh [("p1", row0)]).1 "p1").map
        Row.status = some "IDLE") ∧
    ((findProject (run_agent_workflow "p1" retryBeh [("p1", row0)]).1 "p1").map
        Row.status ≠ some "BLOCKED") ∧
    (run_agent_workflow "p1" retryBeh [("p1", row0)]).2.1
      = .completed "p1" ⟨"sess-3", "COMPLETED", none, "done", none, some 9⟩ ∧
    (run_agent_workflow "p1" retryBeh [("p1", row0)]).2.2 = [60, 60, 60] := by
  decide

/-- Claim C3 (amended): for every project present in the store, (a) a run
that raises an error on all 4 attempts (the initial attempt plus the 3
retries the queue counter allows) — the error arising either before the
session write or at the blocking `task.complete()` wait, i.e. any attempt
outcome with an error message — ends with persisted status BLOCKED and a
failure record carrying the last error, after rescheduling each retry with a
fixed backoff of 60 time units ([60, 60, 60]); and (b) a run with at most 3
error-raising attempts (of either kind) followed by an attempt on which the
remote call completes ends with persisted status IDLE and a completed
result, having used one 60-unit backoff per raised error. -/
theorem c3_retry_policy (pid : String) (st : Store) (r : Row)
    (h : findProject st pid = some r) :
    (∀ (msgs : Nat → String) (beh : Nat → AttemptOutcome),
      (∀ k, k ≤ 3 → errorMsg (beh k) = some (msgs k)) →
      ((findProject (run_agent_workflow pid beh st).1 pid).map Row.status
          = some "BLOCKED") ∧
      (run_agent_workflow pid beh st).2.1 = .failed pid (msgs 3) ∧
      (run_agent_workflow pid beh st).2.2 = [60, 60, 60])
    ∧
    (∀ (beh : Nat → AttemptOutcome) (j : Nat) (sid : String) (rb : RemoteBehavior),
      j ≤ 3 →
      (∀ k, k < j → ∃ m, errorMsg (beh k) = some m) →
      beh j = .completes sid rb →
      ((findProject (run_agent_workflow pid beh st).1 pid).map Row.status
          = some "IDLE") ∧
      (run_agent_workflow pid beh st).2.1
          = .completed pid (workflow_result sid rb) ∧
      (run_agent_workflow pid beh st).2.2 = List.replicate j 60) := by
  constructor
  · intro msgs beh hbeh
    have hbeh0 : ∀ k, k ≤ 3 → errorMsg (beh (0 + k)) = some (msgs (0 + k)) := by
      intro k hk
      simpa using hbeh k hk
    have := run_all_raises pid beh msgs 3 0 st r h hbeh0
    simpa [run_agent_workflow] using this
  · intro beh j sid rb hj hr hs
    have hr0 : ∀ k, k < j → ∃ m, errorMsg (beh (0 + k)) = some m := by
      intro k hk
      simpa using hr k hk
    have hs0 : beh (0 + j) = .completes sid rb := by simpa using hs
    have := run_eventual_success pid beh sid rb j 3 0 st r hj h hr0 hs0
    simpa [run_agent_workflow] using this

/-- Witness for the amended retry-policy theorem: both halves applied to a
concrete one-project store, with errors of both kinds — pre-session raises
and failures of the blocking wait.  The all-raising alternating behaviour
ends BLOCKED with the failure dict and three 60-unit backoffs, and the
raise-then-wait-failure-then-succeed behaviour ends IDLE with a completed
result after two backoffs. -/
theorem c3_retry_policy_witness :
    (((findProject (run_agent_workflow "p1" mixedRaiseBeh [("p1", row0)]).1 "p1").map
        Row.status = some "BLOCKED") ∧
     (run_agent_workflow "p1" mixedRaiseBeh [("p1", row0)]).2.1
        = .failed "p1" "econnrefused" ∧
     (run_agent_workflow "p1" mixedRaiseBeh [("p1", row0)]).2.2 = [60, 60, 60]) ∧
    (((findProject (run_agent_workflow "p1" mixedRetryBeh [("p1", row0)]).1 "p1").map
        Row.status = some "IDLE") ∧
     (run_agent_workflow "p1" mixedRetryBeh [("p1", row0)]).2.1
        = .completed "p1" (workflow_result "sess-3" ⟨none, none, "done", 9⟩) ∧
     (run_agent_workflow "p1" mixedRetryBeh [("p1", row0)]).2.2
        = List.replicate 2 60) := by
  obtain ⟨ha, hb⟩ := c3_retry_policy "p1" [("p1", row0)] row0 (by decide)
  refine ⟨ha (fun _ => "econnrefused") mixedRaiseBeh ?_, ?_⟩
  · intro k _
    by_cases hk2 : k % 2 = 0 <;> simp [mixedRaiseBeh, hk2, errorMsg]
  · refine hb mixedRetryBeh 2 "sess-3" ⟨none, none, "done", 9⟩ (by omega) ?_ (by rfl)
    intro k hk
    interval_cases k
    · exact ⟨"econnrefused", rfl⟩
    · exact ⟨"task timeout", rfl⟩

/-- A project row whose status is RUNNING. -/
def rowRunning : Row := { row0 with status := "RUNNING" }

/-- A running project with live session fields set. -/
def rowLive : Row :=
  { row0 with
    status := "RUNNING", active_session_id := some "s9",
    live_stream_url := some "u9" }

/-- Claim C4: starting a project whose status is RUNNING returns the 400
`Project is already running` error, leaves the store unchanged, and enqueues
no coordinator work — whatever the task queue would have answered. -/
theorem c4_start_running_rejected (st : Store) (pid : String) (r : Row)
    (enq : EnqueueResult) (h : findProject st pid = some r)
    (hr : r.status = "RUNNING") :
    start_project st pid enq = (st, .alreadyRunning, false) := by
  simp [start_project, h, hr]

/-- Witness for C4: the RUNNING check on a concrete one-project store. -/
theorem c4_start_running_rejected_witness :
    start_project [("p1", rowRunning)] "p1" (.ok "task-7")
      = ([("p1", rowRunning)], .alreadyRunning, false) :=
  c4_start_running_rejected [("p1", rowRunning)] "p1" rowRunning (.ok "task-7")
    (by decide) (by decide)

/-- Claim C5: stopping any existing project — whatever its status and session
fields — answers `Project stopped` and persists status IDLE with
`active_session_id` and `live_stream_url` cleared. -/
theorem c5_stop_clears_session (st : Store) (pid : String) (r : Row)
    (h : findProject st pid = some r) :
    (stop_project st pid).2 = .stopped pid ∧
    findProject (stop_project st pid).1 pid
      = some { r with
               status := "IDLE", active_session_id := none,
               live_stream_url := none } := by
  constructor
  · simp [stop_project, h]
  · simp [stop_project, h, findProject_setRow]

/-- Witness for C5: stopping a concrete running project with live session
fields. -/
theorem c5_stop_clears_session_witness :
    (stop_project [("p1", rowLive)] "p1").2 = .stopped "p1" ∧
    findProject (stop_project [("p1", rowLive)] "p1").1 "p1"
      = some { rowLive with
               status := "IDLE", active_session_id := none,
               live_stream_url := none } :=
  c5_stop_clears_session [("p1", rowLive)] "p1" rowLive (by decide)

/-- Claim C6: deleting an existing project answers `Project deleted` and
removes the record, after which `get`, `start` (for any queue behaviour) and
`stop` on that id all answer 404 `Project not found`. -/
theorem c6_delete_then_not_found (st : Store) (pid : String) (r : Row)
    (h : findProject st pid = some r) :
    (delete_project st pid).2 = .deleted pid ∧
    get_project (delete_project st pid).1 pid = .notFound ∧
    (∀ enq, (start_project (delete_project st pid).1 pid enq).2.1 = .notFound) ∧
    (stop_project (delete_project st pid).1 pid).2 = .notFound := by
  have h1 : (delete_project st pid).1 = removeRow st pid := by
    simp [delete_project, h]
  have hrm : findProject (removeRow st pid) pid = none := findProject_removeRow st pid
  refine ⟨by simp [delete_project, h], ?_, ?_, ?_⟩
  · rw [h1]
    simp [get_project, hrm]
  · intro enq
    rw [h1]
    simp [start_project, hrm]
  · rw [h1]
    simp [stop_project, hrm]

/-- Witness for C6: delete followed by get, start and stop on a concrete
store. -/
theorem c6_delete_then_not_found_witness :
    (delete_project [("p1", row0)] "p1").2 = .deleted "p1" ∧
    get_project (delete_project [("p1", row0)] "p1").1 "p1" = .notFound ∧
    (∀ enq, (start_project (delete_project [("p1", row0)] "p1").1 "p1" enq).2.1
        = .notFound) ∧
    (stop_project (delete_project [("p1", row0)] "p1").1 "p1").2 = .notFound :=
  c6_delete_then_not_found [("p1", row0)] "p1" row0 (by decide)

/-- Claim C7: the spec demands that a failed enqueue surfaces a clear error,
takes no silent fallback execution path, and never leaves the status
inconsistent with whether work was enqueued.  The source violates all three:
the `except` branch of `start_project` (main.py lines 171-199) answers 200
with the simulation dict instead of an error, persists status RUNNING even
though no durable work was enqueued, and schedules the in-process
`simulate_workflow` fake run, which later flips the project to IDLE with a
fabricated session id.  This theorem evaluates the embedded endpoint at the
failing input. -/
theorem c7_enqueue_failure_takes_silent_fallback :
    (start_project [("p1", row0)] "p1" (.raises "redis unavailable")).2.1
        = .simulationStarted "p1" "redis unavailable" ∧
    ((findProject (start_project [("p1", row0)] "p1" (.raises "redis unavailable")).1
        "p1").map Row.status = some "RUNNING") ∧
    (start_project [("p1", row0)] "p1" (.raises "redis unavailable")).2.2 = false ∧
    findProject (simulate_workflow
        (start_project [("p1", row0)] "p1" (.raises "redis unavailable")).1 "p1" 5) "p1"
      = some { row0 with
               status := "IDLE",
               active_session_id := some "simulated-session-5" } := by
  decide

/-- Claim C8, counterexample: the claim says an empty instructions string is
rejected.  `ProjectCreate` only requires `system_prompt` to be a string and
`create_project` performs no further validation, so the empty-prompt request
is accepted: it persists a project with `system_prompt = ""` and status
INITIALIZING instead of being rejected. -/
theorem c8_empty_prompt_accepted :
    findProject (create_project ⟨"", none⟩ "id-1" []).1 "id-1"
      = some { id := "id-1", status := "INITIALIZING", system_prompt := some "",
               output_schema := none, auth_cookies := none,
               live_stream_url := none, active_session_id := none,
               last_result := none, last_run_at := none } := by
  decide

/-- Claim C8 (amended): the instructions are validated only for presence and
type (`system_prompt` must be a string; the empty string is accepted), and
every request passing that validation persists a project under the freshly
drawn id with status INITIALIZING and the request's `system_prompt` and
`output_schema`. -/
theorem c8_create_persists_initializing (body : ProjectCreate) (fid : String)
    (st : Store) (h : findProject st fid = none) :
    findProject (create_project body fid st).1 fid
      = some { id := fid, status := "INITIALIZING",
               system_prompt := some body.system_prompt,
               output_schema := body.output_schema, auth_cookies := none,
               live_stream_url := none, active_session_id := none,
               last_result := none, last_run_at := none } := by
  simp only [create_project]
  exact findProject_append st fid _ h

/-- Witness for C8 (amended): creating a project in a concrete store already
holding one other project. -/
theorem c8_create_persists_initializing_witness :
    findProject (create_project ⟨"extract invoice totals", some "schema-1"⟩
        "id-2" [("p1", row0)]).1 "id-2"
      = some { id := "id-2", status := "INITIALIZING",
               system_prompt := some "extract invoice totals",
               output_schema := some "schema-1", auth_cookies := none,
               live_stream_url := none, active_session_id := none,
               last_result := none, last_run_at := none } :=
  c8_create_persists_initializing ⟨"extract invoice totals", some "schema-1"⟩
    "id-2" [("p1", row0)] (by decide)

/-- Claim C9: every coordinator write whose target project id is absent from
the store — the status, session and result updates of the worker — is a
no-op: the functions are total (the source catches every exception and only
logs) and return the store unchanged. -/
theorem c9_writes_to_missing_id_are_noops (st : Store) (pid : String)
    (h : findProject st pid = none) :
    (∀ s, _update_project_status st pid s = st) ∧
    (∀ sid url, _update_project_session st pid sid url = st) ∧
    (∀ rd n, _update_project_result st pid rd n = st) := by
  refine ⟨fun s => update_status_absent st pid s h,
          fun sid url => update_session_absent st pid sid url h,
          fun rd n => update_result_id st pid rd n⟩

/-- Witness for C9: coordinator writes against a store from which the project
was deleted. -/
theorem c9_writes_to_missing_id_are_noops_witness :
    (∀ s, _update_project_status (removeRow [("p1", row0)] "p1") "p1" s
        = removeRow [("p1", row0)] "p1") ∧
    (∀ sid url, _update_project_session (removeRow [("p1", row0)] "p1") "p1" sid url
        = removeRow [("p1", row0)] "p1") ∧
    (∀ rd n, _update_project_result (removeRow [("p1", row0)] "p1") "p1" rd n
        = removeRow [("p1", row0)] "p1") :=
  c9_writes_to_missing_id_are_noops (removeRow [("p1", row0)] "p1") "p1" (by decide)

/-- Claim C10: `POST /projects/{id}/run` delegates verbatim to
`POST /projects/{id}/start`: for every store, project id and queue behaviour
the two endpoints agree on the response, the resulting store, and whether
work was enqueued. -/
theorem c10_run_equals_start (st : Store) (pid : String) (enq : EnqueueResult) :
    run_project st pid enq = start_project st pid enq := rfl

end Cardozi
